import Mathlib

set_option maxHeartbeats 1000000

/- Shallow embedding of the cpp-mediator dispatch engine:
   src/include/cpp_mediator/async.hpp (cancellation tokens, taskResult,
   taskResults, futures), src/include/cpp_mediator/mediator.hpp (the mediator
   with middleware chains, send and sendAsync), and the early variant
   src/mediator.hpp. -/

/-- Exception model covering the exception classes used by async.hpp and the
catch clauses of sendAsync: cancellationException, its subclass
timeoutException, and any other std::exception. -/
inductive Exc where
  | cancellation
  | timeout
  | generic
deriving DecidableEq, Repr

/-- Whether a dynamic_cast of the stored exception to cancellationException
succeeds: it does for cancellationException itself and for its subclass
timeoutException. -/
def Exc.castsToCancellation : Exc → Bool
  | .cancellation => true
  | .timeout => true
  | .generic => false

/-- Whether a dynamic_cast of the stored exception to timeoutException
succeeds: only for timeoutException itself. -/
def Exc.castsToTimeout : Exc → Bool
  | .timeout => true
  | _ => false

/-- The dynamic class of a token object: cancellationToken itself or its
subclass timeoutToken; it drives the virtual dispatch of isCanceled and of
throwIt. -/
inductive TokenKind where
  | base
  | deadline
deriving DecidableEq, Repr

/-- The state of a token at one observation instant: its dynamic class, the
shared boolean flag written by cancel(), and, for a timeoutToken, whether the
deadline has elapsed, i.e. whether now() - m_start > m_timeout holds at this
instant. -/
structure TokenState where
  kind : TokenKind
  flag : Bool
  deadlineElapsed : Bool
deriving DecidableEq, Repr

/-- Virtual isCanceled (async.hpp lines 40-42 and 73-75): the base class reads
the shared flag; timeoutToken overrides it to OR in the elapsed-deadline
comparison. -/
def tokIsCanceled (t : TokenState) : Bool :=
  match t.kind with
  | .base => t.flag
  | .deadline => t.flag || t.deadlineElapsed

/-- Virtual throwIt (async.hpp lines 21-23 and 63-65): the base class throws
cancellationException; timeoutToken overrides it to throw timeoutException. -/
def tokThrowIt (t : TokenState) : Exc :=
  match t.kind with
  | .base => .cancellation
  | .deadline => .timeout

/-- cancellationToken::throwIfCanceled (async.hpp lines 44-48): if isCanceled()
then throwIt(). -/
def throwIfCanceled (t : TokenState) : Except Exc Unit :=
  if tokIsCanceled t then .error (tokThrowIt t) else .ok ()

/-- A cancellationToken value as an object: it holds a shared_ptr to a bool
cell; the pointer is modelled as an index into a store of heap cells. -/
structure TokenRef where
  cell : Nat
deriving DecidableEq, Repr

/-- The copy constructor (async.hpp lines 28-30) copies the shared_ptr, so the
copy aliases the very same heap cell. -/
def tokenCopy (t : TokenRef) : TokenRef :=
  { cell := t.cell }

/-- cancellationToken::cancel (async.hpp lines 36-38): writes true through the
shared pointer; modelled as an update of the heap store at the token's cell. -/
def tokenCancel (store : Nat → Bool) (t : TokenRef) : Nat → Bool :=
  fun n => if n = t.cell then true else store n

/-- Base-class cancellationToken::isCanceled as a read of the shared cell in
the heap store. -/
def tokenRead (store : Nat → Bool) (t : TokenRef) : Bool :=
  store t.cell

/-- taskResult of TResult (async.hpp lines 78-143): a shared_ptr to the result
(none models nullptr) and a shared_ptr to the captured exception; the default
constructor leaves both null. -/
structure taskResult (α : Type) where
  result : Option α := none
  exception : Option Exc := none
deriving DecidableEq, Repr

/-- taskResult::hasResult: the result pointer is non-null. -/
def taskResult.hasResult {α : Type} (t : taskResult α) : Bool :=
  t.result.isSome

/-- taskResult::hasException: the exception pointer is non-null. -/
def taskResult.hasException {α : Type} (t : taskResult α) : Bool :=
  t.exception.isSome

/-- taskResult::isCanceled (async.hpp lines 136-138): hasException() and the
stored exception dynamic_casts to cancellationException. -/
def taskResult.isCanceled {α : Type} (t : taskResult α) : Bool :=
  t.hasException &&
    (match t.exception with
     | some e => e.castsToCancellation
     | none => false)

/-- taskResult::isTimeout (async.hpp lines 140-142): hasException() and the
stored exception dynamic_casts to timeoutException. -/
def taskResult.isTimeout {α : Type} (t : taskResult α) : Bool :=
  t.hasException &&
    (match t.exception with
     | some e => e.castsToTimeout
     | none => false)

/-- The observable behavior of a request_handler handle body: given the request
and the token state, either return the shared_ptr response (none models a
returned nullptr) or throw an exception. -/
abbrev HandlerFn (ρ α : Type) : Type :=
  ρ → TokenState → Except Exc (Option α)

/-- A request_middleware instance: its handle body reaches the rest of the
chain only by calling next's handle, so the instance is modelled by how its
handle behaves as a function of next's handle. -/
structure Middleware (ρ α : Type) where
  body : HandlerFn ρ α → HandlerFn ρ α

/-- The link-building loop of mediator::handle (mediator.hpp lines 63-72):
prev starts as the terminal request_middleware_head, whose handle just invokes
the handler (lines 41-48); walking i from middleware.size() - 1 down to 0, the
loop sets middleware at i's next to prev and makes that middleware the new
prev. The resulting handle of middleware 0 is exactly this right fold. -/
def linkChain {ρ α : Type} (mws : List (Middleware ρ α)) (terminal : HandlerFn ρ α) : HandlerFn ρ α :=
  mws.foldr (fun m next => m.body next) terminal

/-- mediator::handle (mediator.hpp lines 50-78): if the container is null, or
resolveAll returns no middleware, break out and invoke the handler directly;
otherwise link the chain and invoke middleware 0's handle. -/
def mediatorHandle {ρ α : Type} (hasContainer : Bool) (mws : List (Middleware ρ α)) (handler : HandlerFn ρ α) : HandlerFn ρ α :=
  if !hasContainer then handler
  else if mws.isEmpty then handler
  else linkChain mws handler

/-- The loop of mediator::send (mediator.hpp lines 90-93) over the resolved
handlers: invoke each handler's chain and push the response. There is no
try/catch around the call, so a thrown exception aborts the loop and
propagates out of send; the Except error short-circuits accordingly. -/
def sendLoop {ρ α : Type} (hasContainer : Bool) (mws : List (Middleware ρ α)) (r : ρ) (tok : TokenState) : List (HandlerFn ρ α) → Except Exc (List (Option α))
  | [] => .ok []
  | h :: rest =>
    match mediatorHandle hasContainer mws h r tok with
    | .error e => .error e
    | .ok v =>
      match sendLoop hasContainer mws r tok rest with
      | .error e => .error e
      | .ok vs => .ok (v :: vs)

/-- mediator::send (mediator.hpp lines 83-96): resolve the ordered handlers and
run the sequential loop, returning the vector of responses in resolution
order, or propagating the first uncaught exception. -/
def send {ρ α : Type} (hasContainer : Bool) (mws : List (Middleware ρ α)) (handlers : List (HandlerFn ρ α)) (r : ρ) (tok : TokenState) : Except Exc (List (Option α)) :=
  sendLoop hasContainer mws r tok handlers

/-- The catch cascade of the sendAsync task lambda (mediator.hpp lines
113-124): timeoutException is caught first and stored as a timeoutException,
then cancellationException as a cancellationException, and any other
std::exception is stored sliced to a plain std::exception. -/
def catchClassify : Exc → Exc
  | .timeout => .timeout
  | .cancellation => .cancellation
  | .generic => .generic

/-- One task launched by mediator::sendAsync (mediator.hpp lines 106-127): a
default-constructed taskResult has both pointers null; the chain runs, and on
normal return the response pointer is stored in result, while a thrown
exception is caught at the task boundary and its classification stored in
exception. -/
def sendAsyncTask {ρ α : Type} (hasContainer : Bool) (mws : List (Middleware ρ α)) (h : HandlerFn ρ α) (r : ρ) (tok : TokenState) : taskResult α :=
  match mediatorHandle hasContainer mws h r tok with
  | .ok res => { result := res, exception := none }
  | .error e => { result := none, exception := some (catchClassify e) }

/-- mediator::sendAsync (mediator.hpp lines 98-132) composed with futures::get
(async.hpp lines 279-285): sendAsync pushes one future per handler in
resolution order, and get collects each future's taskResult in that same
stored order, so the returned set is the per-handler task outcomes in handler
resolution order. -/
def sendAsyncGet {ρ α : Type} (hasContainer : Bool) (mws : List (Middleware ρ α)) (handlers : List (HandlerFn ρ α)) (r : ρ) (tok : TokenState) : List (taskResult α) :=
  handlers.map (fun h => sendAsyncTask hasContainer mws h r tok)

/-- taskResults::getFirstResult (async.hpp lines 220-227): scan the results in
order; the first element whose result pointer is non-null supplies the out
parameter, and the scan reports whether one was found. -/
def getFirstResult {α : Type} : List (taskResult α) → Option α
  | [] => none
  | t :: rest =>
    match t.result with
    | some v => some v
    | none => getFirstResult rest

/-- The scan of taskResults::throwFirstException (async.hpp lines 154-161):
walk the results in order and locate the first non-null stored exception, the
one the loop body then hands to std::rethrow_exception. Only the scan is
modelled: the rethrow call itself passes the shared_ptr to std::exception
member where a std::exception_ptr is required, so that call is ill-formed once
the member template is instantiated and the re-signal step has no compilable
behavior (nothing in the repository instantiates it). -/
def firstStoredException {α : Type} : List (taskResult α) → Option Exc
  | [] => none
  | t :: rest =>
    match t.exception with
    | some e => some e
    | none => firstStoredException rest

/-- futures::isReady (async.hpp lines 251-259): return true as soon as one
future's status polls ready; each element of the list is one future's
readiness at the observation instant. -/
def futuresIsReady : List Bool → Bool
  | [] => false
  | s :: rest => if s then true else futuresIsReady rest

/-- The for loop inside futures::wait (async.hpp lines 269-273): when a future
is not ready the body executes a continue statement, but that continue targets
the for loop itself, so either way the iteration just advances to the next
future and the whole scan has no effect. -/
def waitScan : List Bool → Unit
  | [] => ()
  | s :: rest => if s then waitScan rest else waitScan rest

/-- futures::wait (async.hpp lines 261-277): inside while(true), return false
if the captured token reports cancelled; otherwise run the effect-free scan of
the futures and fall through to the unconditional return true at the end of
the body, so the first iteration always returns. -/
def futuresWait (tokenCanceled : Bool) (statuses : List Bool) : Bool :=
  if tokenCanceled then false
  else
    let scanned := waitScan statuses
    let _ := scanned
    true

/-- The early variant's handler map (src/mediator.hpp line 39): an
unordered_map from a type hash to an untyped handler pointer, modelled as an
association list from the hash to the handler's behavior. -/
def oldLookup (m : List (Nat × (Unit → Int))) (hash : Nat) : Option (Unit → Int) :=
  m.lookup hash

/-- The loop of the early mediator::send (src/mediator.hpp lines 51-57),
indexed by the remaining iteration count: each iteration re-checks whether the
map contains the request's handler-type hash and, if it does, casts the stored
pointer and calls that handler's handle; once the counter is exhausted,
control falls through past the loop. -/
def oldSendLoop (m : List (Nat × (Unit → Int))) (hash : Nat) (r : Unit) : Nat → Int
  | 0 => 1
  | Nat.succ n =>
    match oldLookup m hash with
    | some h => h r
    | none => oldSendLoop m hash r n

/-- The early mediator::send (src/mediator.hpp lines 48-60): run the loop
handlers_by_type.size() times; when nothing matched, execution reaches the
literal statement return 1. -/
def oldSend (m : List (Nat × (Unit → Int))) (hash : Nat) (r : Unit) : Int :=
  oldSendLoop m hash r m.length

/-- An instrumented middleware that appends its index to a request-side trace
at the moment its handle runs and then forwards to next's handle, exactly the
shape of the example middleware in src/examples/hello_world.cc. -/
def traceMw {α : Type} (i : Nat) : Middleware (List Nat) α :=
  { body := fun next log tok => next (log ++ [i]) tok }

/-- An instrumented terminal handler that returns the trace it observes, so a
dispatch records the order in which the middleware ran before the chain
reached the handler. -/
def traceHandler : HandlerFn (List Nat) (List Nat) :=
  fun log _tok => .ok (some log)

/-- A token state in which nothing is cancelled: a base cancellationToken
whose shared flag is unset. -/
def tokNone : TokenState :=
  { kind := TokenKind.base, flag := false, deadlineElapsed := false }

/-- A timeoutToken that was cancelled explicitly via cancel() while its
deadline had not yet elapsed. -/
def tokCancelledEarly : TokenState :=
  { kind := TokenKind.deadline, flag := true, deadlineElapsed := false }

/-- A handler whose body throws an exception that is neither a cancellation
nor a timeout. -/
def throwingHandler : HandlerFn Unit Nat :=
  fun _ _ => .error .generic

/-- A handler that returns a null response pointer, as the SayHello handlers
in src/examples/hello_world.cc do. -/
def nullHandler : HandlerFn Unit Nat :=
  fun _ _ => .ok none

/-- A handler that returns the non-null response 1. -/
def okOneHandler : HandlerFn Unit Nat :=
  fun _ _ => .ok (some 1)

/-- A handler that returns the non-null response 2. -/
def okTwoHandler : HandlerFn Unit Nat :=
  fun _ _ => .ok (some 2)

/-- A cooperative handler that checks the token at a safe point via
throwIfCanceled and otherwise returns a response. -/
def checkingHandler : HandlerFn Unit Nat :=
  fun _ tok =>
    match throwIfCanceled tok with
    | .error e => .error e
    | .ok _ => .ok (some 0)

/-- A completed task outcome that failed with a generic exception. -/
def cexFail : taskResult Nat :=
  { result := none, exception := some Exc.generic }

/-- A completed task outcome that succeeded with the value 7. -/
def cexOk7 : taskResult Nat :=
  { result := some 7, exception := none }

/-- A completed task outcome that succeeded with the value 8. -/
def cexOk8 : taskResult Nat :=
  { result := some 8, exception := none }

/-- Shape of a normal return of the send loop: when no handler throws, the
pushed responses are in bijection, index by index, with the handlers in
resolution order. -/
theorem sendLoop_ok_shape {ρ α : Type} (hasContainer : Bool) (mws : List (Middleware ρ α)) (r : ρ) (tok : TokenState) :
    ∀ (hs : List (HandlerFn ρ α)) (rs : List (Option α)),
      sendLoop hasContainer mws r tok hs = Except.ok rs →
      rs.length = hs.length ∧
        ∀ i (hi : i < hs.length) (hr : i < rs.length),
          Except.ok (rs[i]) = mediatorHandle hasContainer mws (hs[i]) r tok := by
  intro hs
  induction hs with
  | nil =>
    intro rs h
    simp only [sendLoop] at h
    cases h
    exact ⟨rfl, fun i hi _ => absurd hi (Nat.not_lt_zero i)⟩
  | cons hd tl ih =>
    intro rs h
    simp only [sendLoop] at h
    cases hm : mediatorHandle hasContainer mws hd r tok with
    | error e => rw [hm] at h; cases h
    | ok v =>
      rw [hm] at h
      cases hl : sendLoop hasContainer mws r tok tl with
      | error e => rw [hl] at h; cases h
      | ok vs =>
        rw [hl] at h
        cases h
        obtain ⟨hlen, hidx⟩ := ih vs hl
        refine ⟨by simp [hlen], ?_⟩
        intro i hi hr
        cases i with
        | zero => simpa using hm.symm
        | succ n =>
          have hn : n < tl.length := Nat.lt_of_succ_lt_succ hi
          have hrn : n < vs.length := Nat.lt_of_succ_lt_succ hr
          simpa using hidx n hn hrn

/-- Claim C1: for every request with N resolved handlers, sendAsync followed by
get returns a result set of length exactly N whose element at i is the task
outcome of the handler at i in resolution order; the synchronous send, when it
returns, returns the per-handler responses in resolution order, one per
handler; and N equal to zero yields an empty, non-error result set on both
paths. -/
theorem claim1_result_set_shape {ρ α : Type} (hasContainer : Bool) (mws : List (Middleware ρ α)) (handlers : List (HandlerFn ρ α)) (r : ρ) (tok : TokenState) :
    ((sendAsyncGet hasContainer mws handlers r tok).length = handlers.length
      ∧ ∀ i (hi : i < handlers.length) (hg : i < (sendAsyncGet hasContainer mws handlers r tok).length),
          (sendAsyncGet hasContainer mws handlers r tok)[i]
            = sendAsyncTask hasContainer mws (handlers[i]) r tok)
    ∧ (∀ rs, send hasContainer mws handlers r tok = Except.ok rs →
        rs.length = handlers.length
          ∧ ∀ i (hi : i < handlers.length) (hr : i < rs.length),
              Except.ok (rs[i]) = mediatorHandle hasContainer mws (handlers[i]) r tok)
    ∧ (handlers = [] →
        send hasContainer mws handlers r tok = Except.ok []
          ∧ sendAsyncGet hasContainer mws handlers r tok = []) := by
  refine ⟨⟨?_, ?_⟩, ?_, ?_⟩
  · simp [sendAsyncGet]
  · intro i hi hg
    simp [sendAsyncGet]
  · intro rs h
    exact sendLoop_ok_shape hasContainer mws r tok handlers rs h
  · intro h
    subst h
    exact ⟨rfl, rfl⟩

/-- Running the linked chain built from the instrumented middleware appends
the middleware indices to the incoming trace in list order, then reaches the
terminal handler. -/
theorem linkChain_trace (ids : List Nat) :
    ∀ (log : List Nat) (tok : TokenState),
      linkChain (ids.map (traceMw (α := List Nat))) traceHandler log tok
        = Except.ok (some (log ++ ids)) := by
  induction ids with
  | nil =>
    intro log tok
    simp [linkChain, traceHandler]
  | cons i rest ih =>
    intro log tok
    simp only [List.map_cons, linkChain, List.foldr_cons]
    show linkChain (rest.map (traceMw (α := List Nat))) traceHandler (log ++ [i]) tok = _
    rw [ih (log ++ [i]) tok]
    simp

/-- With container present and a non-empty middleware list, mediator::handle
invokes the linked chain starting at middleware 0. -/
theorem mediatorHandle_of_ne_nil {ρ α : Type} (mws : List (Middleware ρ α)) (h : HandlerFn ρ α) (hne : mws ≠ []) :
    mediatorHandle true mws h = linkChain mws h := by
  cases mws with
  | nil => exact absurd rfl hne
  | cons m rest => rfl

/-- Claim C2: the dispatch chain is built from a terminal adapter invoking the
handler by linking the middleware from last to first, and invocation starts at
middleware 0, so with middleware at indices 0 to k-1 the observed execution
order is 0, 1, up to k-1 and then the handler; with zero middleware the
handler is invoked directly. -/
theorem claim2_chain_build_and_order (k : Nat) (tok : TokenState) :
    (∀ (ρ α : Type) (hasContainer : Bool) (h : HandlerFn ρ α),
        mediatorHandle hasContainer [] h = h)
    ∧ mediatorHandle true ((List.range k).map (traceMw (α := List Nat))) traceHandler [] tok
        = Except.ok (some (List.range k)) := by
  constructor
  · intro ρ α hasContainer h
    cases hasContainer <;> rfl
  · cases k with
    | zero =>
      simp [List.range_zero, mediatorHandle, traceHandler]
    | succ n =>
      have hne : (List.range (Nat.succ n)).map (traceMw (α := List Nat)) ≠ [] := by
        simp [List.range_succ]
      rw [mediatorHandle_of_ne_nil _ _ hne, linkChain_trace (List.range (Nat.succ n)) [] tok]
      simp

/-- Claim C3 counterexample: a handler that throws a generic exception makes
the synchronous send propagate that exception to the caller instead of
converting it into a classified outcome in a returned result set, because the
send loop has no try/catch. -/
theorem claim3_sync_propagation_cex :
    send false [] [throwingHandler] () tokNone = Except.error Exc.generic := rfl

/-- Claim C3 as amended: in the asynchronous path an error raised during chain
execution is caught at the per-task boundary and stored as a classified
exception in the task's result, while in the synchronous send path an error
raised by the first failing handler propagates out of send to the caller. -/
theorem claim3_amended_error_capture :
    (∀ (ρ α : Type) (hasContainer : Bool) (mws : List (Middleware ρ α)) (h : HandlerFn ρ α) (r : ρ) (tok : TokenState) (e : Exc),
        mediatorHandle hasContainer mws h r tok = Except.error e →
          sendAsyncTask hasContainer mws h r tok
            = { result := none, exception := some (catchClassify e) })
    ∧ (∀ (ρ α : Type) (hasContainer : Bool) (mws : List (Middleware ρ α)) (h : HandlerFn ρ α) (rest : List (HandlerFn ρ α)) (r : ρ) (tok : TokenState) (e : Exc),
        mediatorHandle hasContainer mws h r tok = Except.error e →
          send hasContainer mws (h :: rest) r tok = Except.error e) := by
  constructor
  · intro ρ α hasContainer mws h r tok e hm
    simp [sendAsyncTask, hm]
  · intro ρ α hasContainer mws h rest r tok e hm
    simp [send, sendLoop, hm]

/-- Concrete instance of the amended claim C3: the task outcome for the
generic-throwing handler stores the classified exception. -/
theorem claim3_amended_witness :
    sendAsyncTask false [] throwingHandler () tokNone
      = { result := none, exception := some (catchClassify Exc.generic) } :=
  claim3_amended_error_capture.1 Unit Nat false [] throwingHandler () tokNone Exc.generic rfl

/-- Claim C4: in the early variant, dispatching a request whose handler-type
hash resolves no registered handler returns the literal value 1 instead of
signaling a no-handler-found error; with a matching registration the
handler's value is returned. -/
theorem claim4_old_send_returns_one :
    oldSend [] 0 () = 1 ∧ oldSend [(5, fun _ => 7)] 5 () = 7 := ⟨rfl, rfl⟩

/-- Claim C5 counterexample: a handler that completes normally but returns a
null response pointer yields a completed task whose result and exception
pointers are both null, so the observed outcome is neither a success nor a
failure. -/
theorem claim5_null_result_cex :
    (sendAsyncTask false [] nullHandler () tokNone).hasResult = false
    ∧ (sendAsyncTask false [] nullHandler () tokNone).hasException = false :=
  ⟨rfl, rfl⟩

/-- Claim C5 as amended: a completed task never has both a result and a
captured exception; a handler returning a non-null response yields result
only, a throwing handler yields a captured exception only, but a handler
returning a null response pointer yields a completed task with neither, the
same observable state as a pending task. -/
theorem claim5_amended_task_states :
    (∀ (ρ α : Type) (hasContainer : Bool) (mws : List (Middleware ρ α)) (h : HandlerFn ρ α) (r : ρ) (tok : TokenState),
        ¬((sendAsyncTask hasContainer mws h r tok).hasResult = true
          ∧ (sendAsyncTask hasContainer mws h r tok).hasException = true))
    ∧ (∀ (ρ α : Type) (hasContainer : Bool) (mws : List (Middleware ρ α)) (h : HandlerFn ρ α) (r : ρ) (tok : TokenState) (v : α),
        mediatorHandle hasContainer mws h r tok = Except.ok (some v) →
          (sendAsyncTask hasContainer mws h r tok).hasResult = true
            ∧ (sendAsyncTask hasContainer mws h r tok).hasException = false)
    ∧ (∀ (ρ α : Type) (hasContainer : Bool) (mws : List (Middleware ρ α)) (h : HandlerFn ρ α) (r : ρ) (tok : TokenState),
        mediatorHandle hasContainer mws h r tok = Except.ok none →
          (sendAsyncTask hasContainer mws h r tok).hasResult = false
            ∧ (sendAsyncTask hasContainer mws h r tok).hasException = false)
    ∧ (∀ (ρ α : Type) (hasContainer : Bool) (mws : List (Middleware ρ α)) (h : HandlerFn ρ α) (r : ρ) (tok : TokenState) (e : Exc),
        mediatorHandle hasContainer mws h r tok = Except.error e →
          (sendAsyncTask hasContainer mws h r tok).hasResult = false
            ∧ (sendAsyncTask hasContainer mws h r tok).hasException = true) := by
  refine ⟨?_, ?_, ?_, ?_⟩
  · intro ρ α hasContainer mws h r tok hboth
    obtain ⟨h1, h2⟩ := hboth
    cases hm : mediatorHandle hasContainer mws h r tok with
    | ok res =>
      simp [sendAsyncTask, hm, taskResult.hasException] at h2
    | error e =>
      simp [sendAsyncTask, hm, taskResult.hasResult] at h1
  · intro ρ α hasContainer mws h r tok v hm
    simp [sendAsyncTask, hm, taskResult.hasResult, taskResult.hasException]
  · intro ρ α hasContainer mws h r tok hm
    simp [sendAsyncTask, hm, taskResult.hasResult, taskResult.hasException]
  · intro ρ α hasContainer mws h r tok e hm
    simp [sendAsyncTask, hm, taskResult.hasResult, taskResult.hasException]

/-- Concrete instance of the amended claim C5: a handler returning a non-null
response yields a task with a result and no exception. -/
theorem claim5_amended_witness :
    (sendAsyncTask false [] okOneHandler () tokNone).hasResult = true
    ∧ (sendAsyncTask false [] okOneHandler () tokNone).hasException = false :=
  claim5_amended_task_states.2.1 Unit Nat false [] okOneHandler () tokNone 1 rfl

/-- Claim C6 counterexample: a timeoutToken cancelled explicitly via cancel()
before its deadline has elapsed makes throwIfCanceled throw timeoutException,
because timeoutToken overrides throwIt, so the captured task outcome reports
isTimeout true rather than the plain-cancelled classification the claim
requires. -/
theorem claim6_explicit_cancel_cex :
    throwIfCanceled tokCancelledEarly = Except.error Exc.timeout
    ∧ ¬((sendAsyncTask false [] checkingHandler () tokCancelledEarly).isTimeout = false) := by
  exact ⟨rfl, by decide⟩

/-- Claim C6 as amended: for a timeoutToken, any cancellation observed by
throwIfCanceled, explicit or by deadline, signals timeoutException, so the
captured task outcome reports both isTimeout and isCanceled true; the explicit
kind is not distinguishable for a deadline token, and a plain cancelled
classification arises only from a base cancellationToken. -/
theorem claim6_amended_deadline_always_timeout (t : TokenState)
    (hk : t.kind = TokenKind.deadline) (hc : tokIsCanceled t = true) :
    throwIfCanceled t = Except.error Exc.timeout
    ∧ (sendAsyncTask false [] checkingHandler () t).isTimeout = true
    ∧ (sendAsyncTask false [] checkingHandler () t).isCanceled = true
    ∧ (∀ s : TokenState, s.kind = TokenKind.base → tokIsCanceled s = true →
        throwIfCanceled s = Except.error Exc.cancellation) := by
  have hthrow : throwIfCanceled t = Except.error Exc.timeout := by
    simp [throwIfCanceled, hc, tokThrowIt, hk]
  have htask : sendAsyncTask false [] checkingHandler () t
      = { result := none, exception := some Exc.timeout } := by
    simp [sendAsyncTask, mediatorHandle, checkingHandler, hthrow, catchClassify]
  refine ⟨hthrow, ?_, ?_, ?_⟩
  · rw [htask]; rfl
  · rw [htask]; rfl
  · intro s hs hcs
    simp [throwIfCanceled, hcs, tokThrowIt, hs]

/-- Concrete instance of the amended claim C6: the explicitly cancelled
timeoutToken whose deadline has not elapsed signals timeoutException. -/
theorem claim6_amended_witness :
    throwIfCanceled tokCancelledEarly = Except.error Exc.timeout :=
  (claim6_amended_deadline_always_timeout tokCancelledEarly rfl rfl).1

/-- Claim C7: futures::wait returns false when the shared token is cancelled,
but with an uncancelled token it returns true even while a launched task is
still pending, because the continue in the readiness scan targets the for loop
and the while body always reaches return true on its first iteration. -/
theorem claim7_wait_true_with_pending_task :
    futuresWait false [false] = true ∧ futuresWait true [false] = false := ⟨rfl, rfl⟩

/-- Claim C8: a copy of a cancellation token aliases the same shared flag
cell, so cancelling either the original or the copy makes isCanceled read true
through both. -/
theorem claim8_copies_share_cancel_flag (store : Nat → Bool) (t : TokenRef) :
    tokenRead (tokenCancel store t) (tokenCopy t) = true
    ∧ tokenRead (tokenCancel store (tokenCopy t)) t = true
    ∧ tokenRead (tokenCancel store t) t = true := by
  refine ⟨?_, ?_, ?_⟩ <;> simp [tokenRead, tokenCancel, tokenCopy]

/-- Claim C9, evaluated at the claim's inputs: getFirstResult on the set fail,
success 7, success 8 returns the index-1 value, the first success in index
order, and the throwFirstException scan on the set fail, success 7 locates the
exception captured at index 0 even though index 1 succeeded; that located
exception is what the member would have to re-signal, but its rethrow call is
ill-formed when instantiated, so the re-signalling the claim describes never
has compilable behavior. -/
theorem claim9_scan_at_failing_input :
    getFirstResult [cexFail, cexOk7, cexOk8] = some 7
    ∧ firstStoredException [cexFail, cexOk7] = some Exc.generic := ⟨rfl, rfl⟩

/-- Claim C10: futures::isReady returns true exactly when at least one task's
future polls ready, without requiring all of them to be ready, and it returns
false on an empty task list. -/
theorem claim10_isReady_iff_some_ready (ss : List Bool) :
    (futuresIsReady ss = true ↔ ∃ s ∈ ss, s = true)
    ∧ futuresIsReady [] = false := by
  constructor
  · induction ss with
    | nil => simp [futuresIsReady]
    | cons s rest ih =>
      cases s with
      | false =>
        have hstep : futuresIsReady (false :: rest) = futuresIsReady rest := rfl
        rw [hstep, ih]
        simp
      | true => simp [futuresIsReady]
  · rfl
